import Mathlib

/-!
Shallow embedding of `inventory.py` (TwitchDropsMiner): the `Game`,
`BaseDrop`/`TimedDrop` and `DropsCampaign` classes.

Modelling conventions:
* Python `functools.cached_property` attributes become `Option`-valued
  `cache_*` fields of the structures.  Reading a cached property returns the
  cached value when present, otherwise computes it and stores it.  `del` on a
  cached property removes the stored value, and — exactly as in CPython, where
  `cached_property` has no `__delete__` and instance-dict deletion of a missing
  key fails — raises `AttributeError` when the cache was never populated.
* A drop's back-reference to its campaign is modelled by making the campaign
  the state: drop methods become functions on a campaign plus the drop's id.
* Exceptions: mutation entry points return `DropsCampaign × Option PyErr`;
  the returned state reflects every assignment executed before the raise
  (Python does not roll back).  Readers return the updated state together with
  `Except PyErr value`.
* Python `float` division is modelled by `Rat` division (`x / 0` is a
  `ZeroDivisionError`, raised before any `Rat` value is formed).
* `datetime.utcnow()` becomes an explicit `now : Int` parameter; timestamps
  are integers.
* The GQL `ClaimDrop` response's `data` envelope is modelled by `GqlData`;
  the network transport is a parameter of `claim`.
-/

namespace TwitchDrops

/-- Python exceptions that the inventory code can raise. -/
inductive PyErr where
  | attributeError (attrName : String)
  | zeroDivisionError
  | keyError (key : String)
deriving DecidableEq

/-- `class Game`: identity value with `id` and `name`. -/
structure Game where
  id : Int
  name : String
deriving DecidableEq

/-- `Game.__eq__`: compares `self.id == other.id` (for two `Game` values). -/
def Game.beq (a b : Game) : Bool :=
  a.id == b.id

/-- `Game.__hash__`: `hash((self.__class__.__name__, self.id))`. -/
def Game.hashValue (g : Game) : UInt64 :=
  mixHash (hash "Game") (hash g.id)

/-- A `TimedDrop` object: the fields set by `BaseDrop.__init__` and
`TimedDrop.__init__`, plus one `cache_*` field per `cached_property`. -/
structure TimedDrop where
  id : String
  name : String
  rewards : List String
  starts_at : Int
  ends_at : Int
  claim_id : Option String
  is_claimed : Bool
  precondition_drops : List String
  current_minutes : Int
  required_minutes : Int
  cache_preconditions : Option Bool := none
  cache_remaining_minutes : Option Int := none
  cache_progress : Option Rat := none
deriving DecidableEq

/-- A `DropsCampaign` object: fields set by `DropsCampaign.__init__` plus one
`cache_*` field per `cached_property`.  `timed_drops` is the insertion-ordered
dict, as an association list keyed by drop id. -/
structure DropsCampaign where
  id : String
  name : String
  game : Game
  starts_at : Int
  ends_at : Int
  allowed_channels : List String
  timed_drops : List (String × TimedDrop)
  cache_claimed_drops : Option Int := none
  cache_remaining_drops : Option Int := none
  cache_remaining_minutes : Option Int := none
  cache_progress : Option Rat := none
deriving DecidableEq

/-- Per-drop record of the construction snapshot (the JSON fields
`BaseDrop.__init__` / `TimedDrop.__init__` read). -/
structure DropData where
  id : String
  name : String
  benefitNames : List String
  startAt : Int
  endAt : Int
  dropInstanceID : Option String
  isClaimed : Bool
  currentMinutesWatched : Int
  requiredMinutesWatched : Int
  preconditionDrops : Option (List String)
deriving DecidableEq

/-- Per-campaign record of the construction snapshot. -/
structure CampaignData where
  id : String
  name : String
  gameId : Int
  gameName : String
  startAt : Int
  endAt : Int
  allowChannels : Option (List String)
  timeBasedDrops : List DropData
deriving DecidableEq

/-- `TimedDrop.__init__` (running `BaseDrop.__init__` first): copies the
snapshot fields; if the snapshot says the drop is claimed, corrects
`current_minutes` to `required_minutes` (the server under-reports watched
minutes for claimed drops).  All cached properties start unpopulated. -/
def TimedDrop.init (data : DropData) : TimedDrop :=
  { id := data.id
    name := data.name
    rewards := data.benefitNames
    starts_at := data.startAt
    ends_at := data.endAt
    claim_id := data.dropInstanceID
    is_claimed := data.isClaimed
    precondition_drops := data.preconditionDrops.getD []
    current_minutes :=
      if data.isClaimed then data.requiredMinutesWatched
      else data.currentMinutesWatched
    required_minutes := data.requiredMinutesWatched }

/-- `DropsCampaign.__init__`: builds `timed_drops` from the snapshot's
`timeBasedDrops`, keyed by drop id, preserving order. -/
def DropsCampaign.init (data : CampaignData) : DropsCampaign :=
  { id := data.id
    name := data.name
    game := { id := data.gameId, name := data.gameName }
    starts_at := data.startAt
    ends_at := data.endAt
    allowed_channels := data.allowChannels.getD []
    timed_drops := data.timeBasedDrops.map (fun d => (d.id, TimedDrop.init d)) }

/-- Association-list lookup modelling `campaign.timed_drops[key]` access
(first binding of the key; dict keys are unique). -/
def lookupDrop : List (String × TimedDrop) → String → Option TimedDrop
  | [], _ => none
  | p :: rest, k => if p.1 = k then some p.2 else lookupDrop rest k

/-- Replace the drop stored under `k` (in Python the drop is mutated in
place, so every alias sees the change; dict keys are unique, so replacing the
first binding is exact). -/
def setDropList : List (String × TimedDrop) → String → TimedDrop →
    List (String × TimedDrop)
  | [], _, _ => []
  | p :: rest, k, d =>
    if p.1 = k then (p.1, d) :: rest else p :: setDropList rest k d

def DropsCampaign.getDrop (c : DropsCampaign) (k : String) : Option TimedDrop :=
  lookupDrop c.timed_drops k

def DropsCampaign.setDrop (c : DropsCampaign) (k : String) (d : TimedDrop) :
    DropsCampaign :=
  { c with timed_drops := setDropList c.timed_drops k d }

/-- `DropsCampaign.active`: `starts_at <= now < ends_at`. -/
def campaign_active (c : DropsCampaign) (now : Int) : Bool :=
  decide (c.starts_at ≤ now) && decide (now < c.ends_at)

/-- `DropsCampaign.upcoming`: `now < starts_at`. -/
def campaign_upcoming (c : DropsCampaign) (now : Int) : Bool :=
  decide (now < c.starts_at)

/-- `DropsCampaign.expired`: `ends_at <= now`. -/
def campaign_expired (c : DropsCampaign) (now : Int) : Bool :=
  decide (c.ends_at ≤ now)

/-- `DropsCampaign.total_drops`: `len(self.timed_drops)`. -/
def total_drops (c : DropsCampaign) : Int :=
  c.timed_drops.length

/-- `BaseDrop.can_claim`: `self.claim_id is not None`. -/
def can_claim (d : TimedDrop) : Bool :=
  d.claim_id.isSome

/-- Body of the `preconditions` cached property:
`all(campaign.timed_drops[pid].is_claimed for pid in self._precondition_drops)`.
`all` short-circuits on the first unclaimed drop, so a dangling id after it is
never looked up; a dangling id that is reached raises `KeyError`. -/
def preconditions_value (c : DropsCampaign) : List String → Except PyErr Bool
  | [] => .ok true
  | pid :: rest =>
    match c.getDrop pid with
    | none => .error (.keyError pid)
    | some d => if d.is_claimed then preconditions_value c rest else .ok false

/-- Read of the `preconditions` cached property on one drop: returns the
cached value when populated, otherwise computes and stores it. -/
def drop_preconditions (c : DropsCampaign) (d : TimedDrop) :
    TimedDrop × Except PyErr Bool :=
  match d.cache_preconditions with
  | some v => (d, .ok v)
  | none =>
    match preconditions_value c d.precondition_drops with
    | .error e => (d, .error e)
    | .ok v => ({ d with cache_preconditions := some v }, .ok v)

/-- `BaseDrop.can_earn` read on the drop stored under `did`:
`preconditions and not is_claimed and campaign.active and
starts_at <= now < ends_at`.  Reading `preconditions` may populate its cache
(threaded back into the campaign). -/
def read_can_earn (c : DropsCampaign) (did : String) (now : Int) :
    DropsCampaign × Except PyErr Bool :=
  match c.getDrop did with
  | none => (c, .error (.keyError did))
  | some d =>
    match drop_preconditions c d with
    | (d1, .error e) => (c.setDrop did d1, .error e)
    | (d1, .ok pre) =>
      (c.setDrop did d1,
        .ok (pre && !d1.is_claimed && campaign_active c now &&
          (decide (d1.starts_at ≤ now) && decide (now < d1.ends_at))))

/-- Read of the `preconditions` cached property through the campaign. -/
def read_preconditions (c : DropsCampaign) (did : String) :
    DropsCampaign × Except PyErr Bool :=
  match c.getDrop did with
  | none => (c, .error (.keyError did))
  | some d =>
    match drop_preconditions c d with
    | (d1, r) => (c.setDrop did d1, r)

/-- Read of the `TimedDrop.remaining_minutes` cached property:
`required_minutes - current_minutes`, memoized. -/
def drop_remaining_minutes (d : TimedDrop) : TimedDrop × Int :=
  match d.cache_remaining_minutes with
  | some v => (d, v)
  | none =>
    let v := d.required_minutes - d.current_minutes
    ({ d with cache_remaining_minutes := some v }, v)

/-- Read of the `TimedDrop.progress` cached property:
`current_minutes / required_minutes` (float division; dividing by zero raises
`ZeroDivisionError`), memoized. -/
def drop_progress (d : TimedDrop) : TimedDrop × Except PyErr Rat :=
  match d.cache_progress with
  | some v => (d, .ok v)
  | none =>
    if d.required_minutes = 0 then (d, .error .zeroDivisionError)
    else
      let v : Rat := (d.current_minutes : Rat) / (d.required_minutes : Rat)
      ({ d with cache_progress := some v }, .ok v)

/-- `remaining_minutes` read through the campaign. -/
def read_remaining_minutes (c : DropsCampaign) (did : String) :
    DropsCampaign × Except PyErr Int :=
  match c.getDrop did with
  | none => (c, .error (.keyError did))
  | some d =>
    match drop_remaining_minutes d with
    | (d1, v) => (c.setDrop did d1, .ok v)

/-- `progress` read through the campaign. -/
def read_progress (c : DropsCampaign) (did : String) :
    DropsCampaign × Except PyErr Rat :=
  match c.getDrop did with
  | none => (c, .error (.keyError did))
  | some d =>
    match drop_progress d with
    | (d1, r) => (c.setDrop did d1, r)

/-- `sum(d.is_claimed for d in self.timed_drops.values())`. -/
def claimedSum : List (String × TimedDrop) → Int
  | [] => 0
  | p :: rest => (if p.2.is_claimed then 1 else 0) + claimedSum rest

/-- `sum(not d.is_claimed for d in self.timed_drops.values())`. -/
def remainingSum : List (String × TimedDrop) → Int
  | [] => 0
  | p :: rest => (if p.2.is_claimed then 0 else 1) + remainingSum rest

/-- Read of the `DropsCampaign.claimed_drops` cached property. -/
def campaign_claimed_drops (c : DropsCampaign) : DropsCampaign × Int :=
  match c.cache_claimed_drops with
  | some v => (c, v)
  | none =>
    let v := claimedSum c.timed_drops
    ({ c with cache_claimed_drops := some v }, v)

/-- Read of the `DropsCampaign.remaining_drops` cached property. -/
def campaign_remaining_drops (c : DropsCampaign) : DropsCampaign × Int :=
  match c.cache_remaining_drops with
  | some v => (c, v)
  | none =>
    let v := remainingSum c.timed_drops
    ({ c with cache_remaining_drops := some v }, v)

/-- `sum(d.remaining_minutes for d in ...)`: each term is a cached-property
read on the drop, so the traversal threads the updated drops. -/
def sumRemainingDrops : List (String × TimedDrop) →
    List (String × TimedDrop) × Int
  | [] => ([], 0)
  | p :: rest =>
    let (d1, v) := drop_remaining_minutes p.2
    let (rest1, s) := sumRemainingDrops rest
    ((p.1, d1) :: rest1, v + s)

/-- Read of the `DropsCampaign.remaining_minutes` cached property. -/
def campaign_remaining_minutes (c : DropsCampaign) : DropsCampaign × Int :=
  match c.cache_remaining_minutes with
  | some v => (c, v)
  | none =>
    let (l1, s) := sumRemainingDrops c.timed_drops
    ({ c with timed_drops := l1, cache_remaining_minutes := some s }, s)

/-- `sum(d.progress for d in ...)`: stops at the first drop whose `progress`
read raises; drops read before the raise keep their freshly populated cache. -/
def sumProgressDrops : List (String × TimedDrop) →
    List (String × TimedDrop) × Except PyErr Rat
  | [] => ([], .ok 0)
  | p :: rest =>
    match drop_progress p.2 with
    | (d1, .error e) => ((p.1, d1) :: rest, .error e)
    | (d1, .ok v) =>
      match sumProgressDrops rest with
      | (rest1, .error e) => ((p.1, d1) :: rest1, .error e)
      | (rest1, .ok s) => ((p.1, d1) :: rest1, .ok (v + s))

/-- Read of the `DropsCampaign.progress` cached property:
`sum(d.progress for d in ...) / self.total_drops` — the division raises
`ZeroDivisionError` when the campaign owns zero drops. -/
def campaign_progress (c : DropsCampaign) : DropsCampaign × Except PyErr Rat :=
  match c.cache_progress with
  | some v => (c, .ok v)
  | none =>
    match sumProgressDrops c.timed_drops with
    | (l1, .error e) => ({ c with timed_drops := l1 }, .error e)
    | (l1, .ok s) =>
      if l1.length = 0 then ({ c with timed_drops := l1 }, .error .zeroDivisionError)
      else
        let v := s / (l1.length : Rat)
        ({ c with timed_drops := l1, cache_progress := some v }, .ok v)

/-- `BaseDrop._on_claim`: `del self.preconditions`.  Deleting an unpopulated
cached property raises `AttributeError`. -/
def drop_on_claim (d : TimedDrop) : TimedDrop × Option PyErr :=
  match d.cache_preconditions with
  | none => (d, some (.attributeError "preconditions"))
  | some _ => ({ d with cache_preconditions := none }, none)

/-- The `for drop in self.timed_drops.values(): drop._on_claim()` loop of
`DropsCampaign._on_claim`: runs in order, stops at the first raise, keeping
the deletions already performed. -/
def on_claim_drops : List (String × TimedDrop) →
    List (String × TimedDrop) × Option PyErr
  | [] => ([], none)
  | p :: rest =>
    match drop_on_claim p.2 with
    | (d1, some e) => ((p.1, d1) :: rest, some e)
    | (d1, none) =>
      match on_claim_drops rest with
      | (rest1, e) => ((p.1, d1) :: rest1, e)

/-- `DropsCampaign._on_claim`: `del self.claimed_drops`,
`del self.remaining_drops`, then `drop._on_claim()` for every owned drop;
each `del` raises `AttributeError` when the cache is unpopulated. -/
def campaign_on_claim (c : DropsCampaign) : DropsCampaign × Option PyErr :=
  match c.cache_claimed_drops with
  | none => (c, some (.attributeError "claimed_drops"))
  | some _ =>
    let c1 := { c with cache_claimed_drops := none }
    match c1.cache_remaining_drops with
    | none => (c1, some (.attributeError "remaining_drops"))
    | some _ =>
      let c2 := { c1 with cache_remaining_drops := none }
      match on_claim_drops c2.timed_drops with
      | (l1, e) => ({ c2 with timed_drops := l1 }, e)

/-- `DropsCampaign._on_minutes_changed`: `del self.progress`,
`del self.remaining_minutes`. -/
def campaign_on_minutes_changed (c : DropsCampaign) :
    DropsCampaign × Option PyErr :=
  match c.cache_progress with
  | none => (c, some (.attributeError "progress"))
  | some _ =>
    let c1 := { c with cache_progress := none }
    match c1.cache_remaining_minutes with
    | none => (c1, some (.attributeError "remaining_minutes"))
    | some _ => ({ c1 with cache_remaining_minutes := none }, none)

/-- `TimedDrop._on_minutes_changed` on the drop stored under `did`:
`del self.progress`, `del self.remaining_minutes`, then
`self.campaign._on_minutes_changed()`. -/
def drop_on_minutes_changed (c : DropsCampaign) (did : String) :
    DropsCampaign × Option PyErr :=
  match c.getDrop did with
  | none => (c, none)
  | some d =>
    match d.cache_progress with
    | none => (c, some (.attributeError "progress"))
    | some _ =>
      let d1 := { d with cache_progress := none }
      match d1.cache_remaining_minutes with
      | none => (c.setDrop did d1, some (.attributeError "remaining_minutes"))
      | some _ =>
        let d2 := { d1 with cache_remaining_minutes := none }
        campaign_on_minutes_changed (c.setDrop did d2)

/-- `TimedDrop.update_minutes(minutes)`: absolute set, then
`self._on_minutes_changed()`. -/
def update_minutes (c : DropsCampaign) (did : String) (minutes : Int) :
    DropsCampaign × Option PyErr :=
  match c.getDrop did with
  | none => (c, none)
  | some d =>
    drop_on_minutes_changed (c.setDrop did { d with current_minutes := minutes }) did

/-- `TimedDrop.bump_minutes()`: increment by 1 while
`current_minutes < required_minutes`, then run the invalidation path;
silently does nothing once saturated. -/
def bump_minutes (c : DropsCampaign) (did : String) :
    DropsCampaign × Option PyErr :=
  match c.getDrop did with
  | none => (c, none)
  | some d =>
    if d.current_minutes < d.required_minutes then
      drop_on_minutes_changed
        (c.setDrop did { d with current_minutes := d.current_minutes + 1 }) did
    else (c, none)

/-- The `data` envelope of the `ClaimDrop` GQL response.
`errors = none` means the `"errors"` key is absent; `claimDropRewards = none`
means the `"claimDropRewards"` key is absent, `some none` that it is present
but falsy (null/empty), `some (some s)` that it carries `status` `s`. -/
structure GqlData where
  errors : Option (List String)
  claimDropRewards : Option (Option String)
deriving DecidableEq

/-- The response interpretation of `BaseDrop._claim` after the request:
an `errors` key holding a non-empty list means failure; otherwise a present
truthy `claimDropRewards` succeeds exactly when its `status` is
`ELIGIBLE_FOR_ALL` or `DROP_INSTANCE_ALREADY_CLAIMED`; everything else
falls through to `return False`. -/
def eval_claim_response (data : GqlData) : Bool :=
  if (match data.errors with
      | some es => !es.isEmpty
      | none => false) then false
  else
    match data.claimDropRewards with
    | none => false
    | some none => false
    | some (some status) =>
      status == "ELIGIBLE_FOR_ALL" || status == "DROP_INSTANCE_ALREADY_CLAIMED"

/-- The guard structure of `BaseDrop._claim` on one drop: returns
`(result, requested)` where `requested` records whether the GQL request was
issued.  `if not self.can_claim: return False` comes first, then the
`if self.is_claimed: return True` short-circuit, then the single request. -/
def claim_inner (d : TimedDrop) (resp : GqlData) : Bool × Bool :=
  if !can_claim d then (false, false)
  else if d.is_claimed then (true, false)
  else (eval_claim_response resp, true)

/-- Outcome of a `TimedDrop.claim()` call: final campaign state, the boolean
the call would return, whether a network request was issued, and the raised
exception if the invalidation cascade raised (in which case the call never
returns `result`). -/
structure ClaimResult where
  campaign : DropsCampaign
  result : Bool
  requested : Bool
  err : Option PyErr
deriving DecidableEq

/-- `TimedDrop.claim()` on the drop stored under `did`:
`BaseDrop.claim` runs `_claim`; on success it sets `is_claimed = True` and
calls `campaign._on_claim()` (which may raise midway); then the `TimedDrop`
override sets `current_minutes = required_minutes` — without running
`_on_minutes_changed`.  `resp` is the transport's response, consulted only
when the request is issued. -/
def claim (c : DropsCampaign) (did : String) (resp : GqlData) : ClaimResult :=
  match c.getDrop did with
  | none => ⟨c, false, false, none⟩
  | some d =>
    match claim_inner d resp with
    | (false, requested) => ⟨c, false, requested, none⟩
    | (true, requested) =>
      let c1 := c.setDrop did { d with is_claimed := true }
      match campaign_on_claim c1 with
      | (c2, some e) => ⟨c2, true, requested, some e⟩
      | (c2, none) =>
        match c2.getDrop did with
        | none => ⟨c2, true, requested, none⟩
        | some d2 =>
          ⟨c2.setDrop did { d2 with current_minutes := d2.required_minutes },
            true, requested, none⟩

/-! ### Helper lemmas about the association list of drops -/

theorem lookupDrop_set_same (l : List (String × TimedDrop)) (k : String)
    (d d' : TimedDrop) (h : lookupDrop l k = some d) :
    lookupDrop (setDropList l k d') k = some d' := by
  induction l with
  | nil => simp [lookupDrop] at h
  | cons p rest ih =>
    by_cases hk : p.1 = k
    · simp [lookupDrop, setDropList, hk]
    · simp only [lookupDrop, setDropList, hk, if_neg hk, if_false] at h ⊢
      exact ih h

theorem lookupDrop_set_ne (l : List (String × TimedDrop)) (k k' : String)
    (d' : TimedDrop) (h : k' ≠ k) :
    lookupDrop (setDropList l k d') k' = lookupDrop l k' := by
  induction l with
  | nil => simp [setDropList]
  | cons p rest ih =>
    by_cases hk : p.1 = k
    · have hk' : ¬ p.1 = k' := by rw [hk]; exact fun hh => h hh.symm
      simp only [setDropList, if_pos hk, lookupDrop, if_neg hk']
    · by_cases hk2 : p.1 = k'
      · simp only [setDropList, if_neg hk, lookupDrop, if_pos hk2]
      · simp only [setDropList, if_neg hk, lookupDrop, if_neg hk2]
        exact ih

theorem lookupDrop_mem (l : List (String × TimedDrop)) (k : String)
    (d : TimedDrop) (h : lookupDrop l k = some d) : (k, d) ∈ l := by
  induction l with
  | nil => simp [lookupDrop] at h
  | cons p rest ih =>
    by_cases hk : p.1 = k
    · simp only [lookupDrop, if_pos hk] at h
      cases h
      subst hk
      exact List.mem_cons_self _ _
    · simp only [lookupDrop, if_neg hk] at h
      exact List.mem_cons_of_mem _ (ih h)

theorem mem_setDropList (l : List (String × TimedDrop)) (k : String)
    (d : TimedDrop) (q : String × TimedDrop) (h : q ∈ setDropList l k d) :
    q.2 = d ∨ q ∈ l := by
  induction l with
  | nil => simp [setDropList] at h
  | cons p rest ih =>
    by_cases hk : p.1 = k
    · simp only [setDropList, if_pos hk, List.mem_cons] at h
      rcases h with h | h
      · left; rw [h]
      · right; exact List.mem_cons_of_mem _ h
    · simp only [setDropList, if_neg hk, List.mem_cons] at h
      rcases h with h | h
      · right; rw [h]; exact List.mem_cons_self _ _
      · rcases ih h with h2 | h2
        · left; exact h2
        · right; exact List.mem_cons_of_mem _ h2

/-- The effect of `BaseDrop._on_claim` on a drop whose precondition cache is
populated: clearing the cache. -/
def clearPre (d : TimedDrop) : TimedDrop :=
  { d with cache_preconditions := none }

theorem on_claim_drops_all_some (l : List (String × TimedDrop))
    (h : ∀ p ∈ l, p.2.cache_preconditions.isSome = true) :
    on_claim_drops l = (l.map (fun p => (p.1, clearPre p.2)), none) := by
  induction l with
  | nil => simp [on_claim_drops]
  | cons p rest ih =>
    have hp : p.2.cache_preconditions.isSome = true := h p (List.mem_cons_self _ _)
    obtain ⟨v, hv⟩ := Option.isSome_iff_exists.mp hp
    have hrest := ih (fun q hq => h q (List.mem_cons_of_mem _ hq))
    simp [on_claim_drops, drop_on_claim, hv, hrest, clearPre]

theorem lookupDrop_map_clear (l : List (String × TimedDrop)) (k : String) :
    lookupDrop (l.map (fun p => (p.1, clearPre p.2))) k =
      (lookupDrop l k).map clearPre := by
  induction l with
  | nil => simp [lookupDrop]
  | cons p rest ih =>
    by_cases hk : p.1 = k
    · simp [lookupDrop, hk]
    · simp [lookupDrop, hk, ih]

theorem claimedSum_add_remainingSum (l : List (String × TimedDrop)) :
    claimedSum l + remainingSum l = l.length := by
  induction l with
  | nil => simp [claimedSum, remainingSum]
  | cons p rest ih =>
    by_cases hp : p.2.is_claimed <;>
      · simp only [claimedSum, remainingSum, hp, if_true, if_false,
          List.length_cons]
        push_cast
        omega

theorem claimedSum_set (l : List (String × TimedDrop)) (k : String)
    (d d' : TimedDrop) (hl : lookupDrop l k = some d)
    (h : d'.is_claimed = d.is_claimed) :
    claimedSum (setDropList l k d') = claimedSum l := by
  induction l with
  | nil => simp [lookupDrop] at hl
  | cons p rest ih =>
    by_cases hk : p.1 = k
    · simp only [lookupDrop, if_pos hk] at hl
      cases hl
      simp [setDropList, hk, claimedSum, h]
    · simp only [lookupDrop, if_neg hk] at hl
      simp [setDropList, hk, claimedSum, ih hl]

theorem remainingSum_set (l : List (String × TimedDrop)) (k : String)
    (d d' : TimedDrop) (hl : lookupDrop l k = some d)
    (h : d'.is_claimed = d.is_claimed) :
    remainingSum (setDropList l k d') = remainingSum l := by
  induction l with
  | nil => simp [lookupDrop] at hl
  | cons p rest ih =>
    by_cases hk : p.1 = k
    · simp only [lookupDrop, if_pos hk] at hl
      cases hl
      simp [setDropList, hk, remainingSum, h]
    · simp only [lookupDrop, if_neg hk] at hl
      simp [setDropList, hk, remainingSum, ih hl]

theorem campaign_on_minutes_changed_drops (c : DropsCampaign) :
    (campaign_on_minutes_changed c).1.timed_drops = c.timed_drops := by
  unfold campaign_on_minutes_changed
  cases c.cache_progress
  · simp
  · simp only
    cases c.cache_remaining_minutes <;> simp

theorem campaign_on_minutes_changed_counts (c : DropsCampaign) :
    (campaign_on_minutes_changed c).1.cache_claimed_drops =
        c.cache_claimed_drops ∧
      (campaign_on_minutes_changed c).1.cache_remaining_drops =
        c.cache_remaining_drops := by
  unfold campaign_on_minutes_changed
  cases c.cache_progress
  · simp
  · simp only
    cases c.cache_remaining_minutes <;> simp

theorem drop_on_minutes_changed_preserves (c : DropsCampaign) (did : String) :
    (drop_on_minutes_changed c did).1.cache_claimed_drops =
        c.cache_claimed_drops ∧
      (drop_on_minutes_changed c did).1.cache_remaining_drops =
        c.cache_remaining_drops ∧
      claimedSum (drop_on_minutes_changed c did).1.timed_drops =
        claimedSum c.timed_drops ∧
      remainingSum (drop_on_minutes_changed c did).1.timed_drops =
        remainingSum c.timed_drops := by
  unfold drop_on_minutes_changed
  split
  · exact ⟨rfl, rfl, rfl, rfl⟩
  next d hd =>
    split
    · exact ⟨rfl, rfl, rfl, rfl⟩
    next v hp =>
      dsimp only
      split
      next hr =>
        exact ⟨rfl, rfl, claimedSum_set _ _ _ _ hd rfl,
          remainingSum_set _ _ _ _ hd rfl⟩
      next w hr =>
        refine ⟨(campaign_on_minutes_changed_counts _).1,
          (campaign_on_minutes_changed_counts _).2, ?_, ?_⟩
        · rw [campaign_on_minutes_changed_drops]
          exact claimedSum_set _ _ _ _ hd rfl
        · rw [campaign_on_minutes_changed_drops]
          exact remainingSum_set _ _ _ _ hd rfl

theorem getDrop_setDrop_same (c : DropsCampaign) (k : String) (d d' : TimedDrop)
    (h : c.getDrop k = some d) : (c.setDrop k d').getDrop k = some d' :=
  lookupDrop_set_same _ _ _ _ h

theorem getDrop_setDrop_ne (c : DropsCampaign) (k k' : String) (d' : TimedDrop)
    (h : k' ≠ k) : (c.setDrop k d').getDrop k' = c.getDrop k' :=
  lookupDrop_set_ne _ _ _ _ h

theorem drop_on_minutes_changed_fields (c : DropsCampaign) (did : String)
    (d : TimedDrop) (hd : c.getDrop did = some d) :
    ((drop_on_minutes_changed c did).1.getDrop did).map
        (fun x => (x.current_minutes, x.is_claimed, x.required_minutes)) =
      some (d.current_minutes, d.is_claimed, d.required_minutes) := by
  unfold drop_on_minutes_changed
  rw [hd]
  dsimp only
  split
  next hp =>
    rw [hd]
    rfl
  next v hp =>
    split
    next hr =>
      rw [getDrop_setDrop_same _ _ _ _ hd]
      rfl
    next w hr =>
      dsimp only [DropsCampaign.getDrop]
      rw [campaign_on_minutes_changed_drops]
      dsimp only [DropsCampaign.setDrop]
      rw [lookupDrop_set_same _ _ _ _ hd]
      rfl

theorem campaign_on_claim_populated (c : DropsCampaign)
    (hcc : c.cache_claimed_drops.isSome = true)
    (hcr : c.cache_remaining_drops.isSome = true)
    (hpre : ∀ p ∈ c.timed_drops, p.2.cache_preconditions.isSome = true) :
    campaign_on_claim c =
      ({ c with
          cache_claimed_drops := none
          cache_remaining_drops := none
          timed_drops := c.timed_drops.map (fun p => (p.1, clearPre p.2)) },
        none) := by
  obtain ⟨a, ha⟩ := Option.isSome_iff_exists.mp hcc
  obtain ⟨b, hb⟩ := Option.isSome_iff_exists.mp hcr
  unfold campaign_on_claim
  rw [ha]
  dsimp only
  rw [hb]
  dsimp only
  rw [on_claim_drops_all_some _ hpre]

theorem eval_claim_response_bad (resp : GqlData)
    (h : (∃ es, resp.errors = some es ∧ es ≠ []) ∨
         resp.claimDropRewards = none ∨ resp.claimDropRewards = some none ∨
         (∃ s, resp.claimDropRewards = some (some s) ∧
           s ≠ "ELIGIBLE_FOR_ALL" ∧ s ≠ "DROP_INSTANCE_ALREADY_CLAIMED")) :
    eval_claim_response resp = false := by
  unfold eval_claim_response
  rcases h with ⟨es, he, hne⟩ | h | h | ⟨s, hs, h1, h2⟩
  · rw [he]
    simp [List.isEmpty_iff, hne]
  · split
    · rfl
    · rw [h]
  · split
    · rfl
    · rw [h]
  · split
    · rfl
    · rw [hs]
      simp [h1, h2]

theorem pre_all_set (l : List (String × TimedDrop)) (k : String)
    (d d' : TimedDrop) (hl : lookupDrop l k = some d)
    (hpre : ∀ p ∈ l, p.2.cache_preconditions.isSome = true)
    (hd' : d'.cache_preconditions = d.cache_preconditions) :
    ∀ p ∈ setDropList l k d', p.2.cache_preconditions.isSome = true := by
  intro q hq
  rcases mem_setDropList _ _ _ _ hq with h | h
  · rw [h, hd']
    exact hpre (k, d) (lookupDrop_mem _ _ _ hl)
  · exact hpre q h

/-! ### Example states (shared by several claims) -/

/-- A successful `ClaimDrop` response (`status: ELIGIBLE_FOR_ALL`). -/
def respSuccess : GqlData := ⟨none, some (some "ELIGIBLE_FOR_ALL")⟩

/-- Snapshot of a claimable, unclaimed drop. -/
def exDropDataA : DropData :=
  ⟨"a", "Drop A", ["Reward A"], 0, 100, some "tok", false, 0, 10, none⟩

/-- Snapshot of an unclaimed drop without a claim token. -/
def exDropDataB : DropData :=
  ⟨"b", "Drop B", ["Reward B"], 0, 100, none, false, 0, 10, none⟩

/-- Snapshot of a two-drop campaign. -/
def exCampaignData : CampaignData :=
  ⟨"camp", "Campaign", 7, "Some Game", 0, 100, none, [exDropDataA, exDropDataB]⟩

/-- The two-drop campaign, freshly constructed: every cache unpopulated. -/
def exFresh : DropsCampaign := DropsCampaign.init exCampaignData

/-! ### The claims -/

/-- Claim C10: for two `Game` values, equality and hash are determined by the
`id` alone — equal ids give `__eq__` true and equal `__hash__` regardless of
the names, and unequal ids give `__eq__` false. -/
theorem C10_game_eq_hash_by_id (a b : Game) :
    (a.id = b.id → Game.beq a b = true ∧ Game.hashValue a = Game.hashValue b) ∧
      (a.id ≠ b.id → Game.beq a b = false) := by
  constructor
  · intro h
    constructor
    · simp [Game.beq, h]
    · simp [Game.hashValue, h]
  · intro h
    simp [Game.beq, h]

theorem C10_game_eq_hash_by_id_witness :
    (Game.beq ⟨1, "Alpha"⟩ ⟨1, "Beta"⟩ = true ∧
        Game.hashValue ⟨1, "Alpha"⟩ = Game.hashValue ⟨1, "Beta"⟩) ∧
      Game.beq ⟨1, "Alpha"⟩ ⟨2, "Alpha"⟩ = false :=
  ⟨(C10_game_eq_hash_by_id ⟨1, "Alpha"⟩ ⟨1, "Beta"⟩).1 rfl,
    (C10_game_eq_hash_by_id ⟨1, "Alpha"⟩ ⟨2, "Alpha"⟩).2 (by decide)⟩

/-- Snapshot of a campaign owning zero units. -/
def exEmptyCampaignData : CampaignData :=
  ⟨"camp-empty", "Empty Campaign", 7, "Some Game", 0, 100, none, []⟩

/-- Claim C2 (code bug): on a campaign with zero units, reading the
`progress` aggregate does not return a degenerate value — the division
`sum(...) / self.total_drops` raises `ZeroDivisionError`. -/
theorem C2_zero_units_progress_raises :
    total_drops (DropsCampaign.init exEmptyCampaignData) = 0 ∧
      (campaign_progress (DropsCampaign.init exEmptyCampaignData)).2 =
        .error .zeroDivisionError :=
  ⟨rfl, rfl⟩

/-- Claim C9: `can_claim` is true iff the claim token is present — it is a
function of `claim_id` only, taking no time input — and a `claim()` call on a
drop with no token returns `false` with the campaign unchanged, no network
request and no exception. -/
theorem C9_eligible_to_claim (c : DropsCampaign) (did : String) (d : TimedDrop)
    (resp : GqlData) (hd : c.getDrop did = some d)
    (htok : d.claim_id = none) :
    can_claim d = d.claim_id.isSome ∧
      claim c did resp = ⟨c, false, false, none⟩ := by
  refine ⟨rfl, ?_⟩
  unfold claim
  rw [hd]
  dsimp only
  have hi : claim_inner d resp = (false, false) := by
    simp [claim_inner, can_claim, htok]
  rw [hi]

theorem C9_eligible_to_claim_witness :
    can_claim (TimedDrop.init exDropDataB) =
        (TimedDrop.init exDropDataB).claim_id.isSome ∧
      claim exFresh "b" respSuccess = ⟨exFresh, false, false, none⟩ :=
  C9_eligible_to_claim exFresh "b" (TimedDrop.init exDropDataB) respSuccess
    rfl rfl

/-- Snapshot of a campaign whose single drop is already claimed but has no
claim token. -/
def exC4Data : CampaignData :=
  ⟨"camp4", "Campaign 4", 7, "Some Game", 0, 100, none,
    [⟨"a", "Drop A", [], 0, 100, none, true, 10, 10, none⟩]⟩

/-- Claim C4 counterexample: a drop with `is_claimed == true` but no claim
token present — `claim()` returns `false`, not `true`, because the
`can_claim` guard runs before the `is_claimed` short-circuit. -/
theorem C4_counterexample :
    ((DropsCampaign.init exC4Data).getDrop "a").map (fun d => d.is_claimed) =
        some true ∧
      claim (DropsCampaign.init exC4Data) "a" respSuccess =
        ⟨DropsCampaign.init exC4Data, false, false, none⟩ :=
  ⟨rfl, rfl⟩

/-- Snapshot of a campaign whose single drop is already claimed and still has
a claim token. -/
def exC4TokData : CampaignData :=
  ⟨"camp4t", "Campaign 4t", 7, "Some Game", 0, 100, none,
    [⟨"a", "Drop A", [], 0, 100, some "tok", true, 10, 10, none⟩]⟩

/-- The claimed-with-token campaign with the invalidation caches populated by
prior reads. -/
def exC4_prepared : DropsCampaign :=
  (read_preconditions ((campaign_remaining_drops ((campaign_claimed_drops
    (DropsCampaign.init exC4TokData)).1)).1) "a").1

/-- Claim C4 (amended): for a drop that is already claimed AND still has a
claim token, `claim()` returns `true` immediately and issues no network
request (provided the caches its invalidation cascade deletes are populated;
otherwise the cascade raises, see C3).  Without a token the call returns
`false` (see the counterexample). -/
theorem C4_claim_idempotent (c : DropsCampaign) (did : String) (d : TimedDrop)
    (resp : GqlData) (hd : c.getDrop did = some d)
    (hcl : d.is_claimed = true) (htok : d.claim_id.isSome = true)
    (hcc : c.cache_claimed_drops.isSome = true)
    (hcr : c.cache_remaining_drops.isSome = true)
    (hpre : ∀ p ∈ c.timed_drops, p.2.cache_preconditions.isSome = true) :
    (claim c did resp).result = true ∧ (claim c did resp).requested = false ∧
      (claim c did resp).err = none := by
  have hi : claim_inner d resp = (true, false) := by
    simp [claim_inner, can_claim, htok, hcl]
  have hoc := campaign_on_claim_populated
    (c.setDrop did { d with is_claimed := true }) hcc hcr
    (pre_all_set _ _ _ _ hd hpre rfl)
  obtain ⟨cf, hcf⟩ : ∃ cf, claim c did resp = ⟨cf, true, false, none⟩ := by
    unfold claim
    rw [hd]
    dsimp only
    rw [hi]
    dsimp only
    rw [hoc]
    dsimp only [DropsCampaign.getDrop, DropsCampaign.setDrop]
    rw [lookupDrop_map_clear, lookupDrop_set_same _ _ _ _ hd]
    exact ⟨_, rfl⟩
  rw [hcf]
  exact ⟨rfl, rfl, rfl⟩

theorem C4_claim_idempotent_witness :
    (claim exC4_prepared "a" respSuccess).result = true ∧
      (claim exC4_prepared "a" respSuccess).requested = false ∧
      (claim exC4_prepared "a" respSuccess).err = none :=
  C4_claim_idempotent exC4_prepared "a"
    { id := "a", name := "Drop A", rewards := [], starts_at := 0,
      ends_at := 100, claim_id := some "tok", is_claimed := true,
      precondition_drops := [], current_minutes := 10, required_minutes := 10,
      cache_preconditions := some true, cache_remaining_minutes := none,
      cache_progress := none }
    respSuccess rfl rfl rfl rfl rfl (by decide)

/-- Claim C5: when a `claim()` call issues the remote request and the
response carries a non-empty `errors` list, lacks a truthy
`claimDropRewards` result, or carries an unrecognized `status`, the call
returns `false`, the campaign state — in particular `is_claimed` — is
unchanged, and no exception is raised. -/
theorem C5_failed_claim_state_unchanged (c : DropsCampaign) (did : String)
    (d : TimedDrop) (resp : GqlData) (hd : c.getDrop did = some d)
    (huncl : d.is_claimed = false) (htok : d.claim_id.isSome = true)
    (hbad : (∃ es, resp.errors = some es ∧ es ≠ []) ∨
      resp.claimDropRewards = none ∨ resp.claimDropRewards = some none ∨
      (∃ s, resp.claimDropRewards = some (some s) ∧
        s ≠ "ELIGIBLE_FOR_ALL" ∧ s ≠ "DROP_INSTANCE_ALREADY_CLAIMED")) :
    claim c did resp = ⟨c, false, true, none⟩ := by
  have he := eval_claim_response_bad resp hbad
  unfold claim
  rw [hd]
  dsimp only
  have hi : claim_inner d resp = (false, true) := by
    simp [claim_inner, can_claim, htok, huncl, he]
  rw [hi]

theorem C5_failed_claim_state_unchanged_witness :
    claim exFresh "a" ⟨some ["x"], none⟩ = ⟨exFresh, false, true, none⟩ :=
  C5_failed_claim_state_unchanged exFresh "a" (TimedDrop.init exDropDataA)
    ⟨some ["x"], none⟩ rfl rfl rfl (Or.inl ⟨["x"], rfl, by simp⟩)

/-- Non-raising condition for the minutes invalidation path: every cache it
deletes is populated. -/
theorem drop_on_minutes_changed_nonraising (c : DropsCampaign) (did : String)
    (d : TimedDrop) (hd : c.getDrop did = some d)
    (h1 : d.cache_progress.isSome = true)
    (h2 : d.cache_remaining_minutes.isSome = true)
    (h3 : c.cache_progress.isSome = true)
    (h4 : c.cache_remaining_minutes.isSome = true) :
    (drop_on_minutes_changed c did).2 = none := by
  obtain ⟨v, hv⟩ := Option.isSome_iff_exists.mp h1
  obtain ⟨w, hw⟩ := Option.isSome_iff_exists.mp h2
  obtain ⟨x, hx⟩ := Option.isSome_iff_exists.mp h3
  obtain ⟨y, hy⟩ := Option.isSome_iff_exists.mp h4
  unfold drop_on_minutes_changed
  rw [hd]
  dsimp only
  rw [hv]
  dsimp only
  rw [hw]
  dsimp only
  unfold campaign_on_minutes_changed
  dsimp only [DropsCampaign.setDrop]
  rw [hx]
  dsimp only
  rw [hy]

/-- Claim C3 counterexample: `update_minutes` and `bump_minutes` on a freshly
constructed drop (whose `progress` cache was never read) raise
`AttributeError`, and a successful `claim()` raises `AttributeError` when a
sibling drop's `preconditions` cache was never read — the mutation entry
points are not total. -/
theorem C3_counterexample :
    (update_minutes exFresh "a" 5).2 = some (.attributeError "progress") ∧
      (bump_minutes exFresh "a").2 = some (.attributeError "progress") ∧
      (claim ((read_preconditions ((campaign_remaining_drops
          ((campaign_claimed_drops exFresh).1)).1) "a").1) "a"
        respSuccess).result = true ∧
      (claim ((read_preconditions ((campaign_remaining_drops
          ((campaign_claimed_drops exFresh).1)).1) "a").1) "a"
        respSuccess).err = some (.attributeError "preconditions") :=
  ⟨rfl, rfl, rfl, rfl⟩

/-- Claim C3 (amended): the mutation entry points are non-raising exactly
when every cached attribute their invalidation step deletes is populated:
`update_minutes` and an unsaturated `bump_minutes` do not raise when the
drop's `progress`/`remaining_minutes` caches and the campaign's
`progress`/`remaining_minutes` caches are populated, and `claim()` does not
raise when the campaign's count caches and every owned drop's
`preconditions` cache are populated.  (When one of these caches was never
read, the `del` raises `AttributeError` — see the counterexample.) -/
theorem C3_mutations_nonraising (c : DropsCampaign) (did : String)
    (d : TimedDrop) (m : Int) (resp : GqlData)
    (hd : c.getDrop did = some d) :
    ((d.cache_progress.isSome = true ∧
      d.cache_remaining_minutes.isSome = true ∧
      c.cache_progress.isSome = true ∧
      c.cache_remaining_minutes.isSome = true) →
        (update_minutes c did m).2 = none ∧
          (d.current_minutes < d.required_minutes →
            (bump_minutes c did).2 = none)) ∧
    ((c.cache_claimed_drops.isSome = true ∧
      c.cache_remaining_drops.isSome = true ∧
      (∀ p ∈ c.timed_drops, p.2.cache_preconditions.isSome = true)) →
        (claim c did resp).err = none) := by
  constructor
  · rintro ⟨h1, h2, h3, h4⟩
    constructor
    · unfold update_minutes
      rw [hd]
      dsimp only
      exact drop_on_minutes_changed_nonraising _ _ _
        (getDrop_setDrop_same _ _ _ _ hd) h1 h2 h3 h4
    · intro hlt
      unfold bump_minutes
      rw [hd]
      dsimp only
      rw [if_pos hlt]
      exact drop_on_minutes_changed_nonraising _ _ _
        (getDrop_setDrop_same _ _ _ _ hd) h1 h2 h3 h4
  · rintro ⟨hcc, hcr, hpre⟩
    unfold claim
    rw [hd]
    dsimp only
    rcases hci : claim_inner d resp with ⟨r, q⟩
    cases r
    · rfl
    · dsimp only
      rw [campaign_on_claim_populated (c.setDrop did { d with is_claimed := true })
        hcc hcr (pre_all_set _ _ _ _ hd hpre rfl)]
      dsimp only [DropsCampaign.getDrop, DropsCampaign.setDrop]
      rw [lookupDrop_map_clear, lookupDrop_set_same _ _ _ _ hd]
      rfl

/-- The claimable drop of the two-drop campaign with its three caches
populated — a state reached after reading `progress`, `remaining_minutes`
and `preconditions`. -/
def exC3_popA : TimedDrop :=
  { id := "a", name := "Drop A", rewards := ["Reward A"], starts_at := 0,
    ends_at := 100, claim_id := some "tok", is_claimed := false,
    precondition_drops := [], current_minutes := 0, required_minutes := 10,
    cache_preconditions := some true, cache_remaining_minutes := some 10,
    cache_progress := some 0 }

/-- The tokenless drop of the two-drop campaign with its caches populated. -/
def exC3_popB : TimedDrop :=
  { id := "b", name := "Drop B", rewards := ["Reward B"], starts_at := 0,
    ends_at := 100, claim_id := none, is_claimed := false,
    precondition_drops := [], current_minutes := 0, required_minutes := 10,
    cache_preconditions := some true, cache_remaining_minutes := some 10,
    cache_progress := some 0 }

/-- The two-drop campaign with every cache the mutation entry points touch
populated. -/
def exC3_prepared : DropsCampaign :=
  { id := "camp", name := "Campaign", game := ⟨7, "Some Game"⟩, starts_at := 0,
    ends_at := 100, allowed_channels := [],
    timed_drops := [("a", exC3_popA), ("b", exC3_popB)],
    cache_claimed_drops := some 0, cache_remaining_drops := some 2,
    cache_remaining_minutes := some 20, cache_progress := some 0 }

theorem C3_mutations_nonraising_witness :
    ((update_minutes exC3_prepared "a" 5).2 = none ∧
      (bump_minutes exC3_prepared "a").2 = none) ∧
      (claim exC3_prepared "a" respSuccess).err = none := by
  have h := C3_mutations_nonraising exC3_prepared "a" exC3_popA 5 respSuccess rfl
  obtain ⟨ha, hb⟩ := h
  obtain ⟨hu, hbump⟩ := ha ⟨rfl, rfl, rfl, rfl⟩
  exact ⟨⟨hu, hbump (by decide)⟩, hb ⟨rfl, rfl, by decide⟩⟩

/-- Snapshot of a one-drop campaign used for the minute-tick example:
`required_minutes = 30`, `current_minutes = 0`. -/
def exC8Data : CampaignData :=
  ⟨"camp8", "Campaign 8", 7, "Some Game", 0, 100, none,
    [⟨"a", "Drop A", [], 0, 100, none, false, 0, 30, none⟩]⟩

/-- The state reached after 30 `bump_minutes` calls on the 30-minute drop. -/
def exC8_after : DropsCampaign :=
  (fun s => (bump_minutes s "a").1)^[30] (DropsCampaign.init exC8Data)

/-- Claim C8: `bump_minutes` increments `current_minutes` by exactly 1 while
`current_minutes < required_minutes` and is a silent no-op (state unchanged,
nothing raised) once saturated; concretely, on a drop with
`required_minutes = 30` starting at 0, thirty calls reach
`current_minutes = 30` with `progress` reading `1.0` and `remaining_minutes`
reading `0`, and a 31st call changes nothing. -/
theorem C8_bump_semantics (c : DropsCampaign) (did : String) (d : TimedDrop)
    (hd : c.getDrop did = some d) :
    ((d.current_minutes < d.required_minutes →
        (((bump_minutes c did).1.getDrop did).map (fun x => x.current_minutes) =
          some (d.current_minutes + 1))) ∧
      (¬ d.current_minutes < d.required_minutes →
        bump_minutes c did = (c, none))) ∧
    ((exC8_after.getDrop "a").map (fun x => x.current_minutes) = some 30 ∧
      (read_progress exC8_after "a").2 = .ok 1 ∧
      (read_remaining_minutes exC8_after "a").2 = .ok 0 ∧
      bump_minutes exC8_after "a" = (exC8_after, none)) := by
  have hprog : (read_progress exC8_after "a").2 = .ok 1 := by
    rw [show (read_progress exC8_after "a").2 =
      .ok (((30 : Int) : Rat) / ((30 : Int) : Rat)) from rfl]
    norm_num
  refine ⟨⟨?_, ?_⟩, rfl, hprog, rfl, rfl⟩
  · intro hlt
    unfold bump_minutes
    rw [hd]
    dsimp only
    rw [if_pos hlt]
    have hf := drop_on_minutes_changed_fields
      (c.setDrop did { d with current_minutes := d.current_minutes + 1 }) did
      _ (getDrop_setDrop_same _ _ _ _ hd)
    cases hg : ((drop_on_minutes_changed
        (c.setDrop did { d with current_minutes := d.current_minutes + 1 })
        did).1.getDrop did) with
    | none => rw [hg] at hf; simp at hf
    | some x =>
      rw [hg] at hf
      simp at hf ⊢
      exact hf.1
  · intro hge
    unfold bump_minutes
    rw [hd]
    dsimp only
    rw [if_neg hge]

theorem C8_bump_semantics_witness :
    ((bump_minutes exFresh "a").1.getDrop "a").map
        (fun x => x.current_minutes) = some 1 :=
  (C8_bump_semantics exFresh "a" (TimedDrop.init exDropDataA) rfl).1.1
    (by decide)

/-- Snapshot of a one-drop campaign: claimable, unclaimed,
`required_minutes = 2`, `current_minutes = 1`. -/
def exC1Data : CampaignData :=
  ⟨"camp1", "Campaign 1", 7, "Some Game", 0, 100, none,
    [⟨"a", "Drop A", ["Reward A"], 0, 100, some "tok", false, 1, 2, none⟩]⟩

/-- The half-done campaign with `progress`, `remaining_minutes` and the
claim-cascade caches populated by prior reads. -/
def exC1_prepared : DropsCampaign :=
  (read_preconditions ((campaign_remaining_drops ((campaign_claimed_drops
    ((read_remaining_minutes ((read_progress (DropsCampaign.init exC1Data)
      "a").1) "a").1)).1)).1) "a").1

/-- The result of a successful `claim()` on that campaign. -/
def exC1_claimed : ClaimResult := claim exC1_prepared "a" respSuccess

/-- Claim C1 (code bug): after a successful `claim()`, `current_minutes`
does equal `required_minutes`, but a subsequent read of `progress` returns
the stale cached `0.5` (not `1.0`) and `remaining_minutes` returns the stale
cached `1` (not `0`): `TimedDrop.claim` sets `current_minutes` without
invalidating the two caches. -/
theorem C1_stale_progress_after_claim :
    exC1_claimed.err = none ∧ exC1_claimed.result = true ∧
      ((exC1_claimed.campaign.getDrop "a").map
        (fun d => (d.is_claimed, d.current_minutes, d.required_minutes))) =
        some (true, 2, 2) ∧
      (read_progress exC1_claimed.campaign "a").2 = .ok (1 / 2) ∧
      ((1 : Rat) / 2) ≠ 1 ∧
      (read_remaining_minutes exC1_claimed.campaign "a").2 = .ok 1 ∧
      (1 : Int) ≠ 0 :=
  ⟨rfl, rfl, rfl, rfl, by norm_num, rfl, by decide⟩

theorem setDrop_cache_counts (c : DropsCampaign) (k : String) (d : TimedDrop) :
    (c.setDrop k d).cache_claimed_drops = c.cache_claimed_drops ∧
      (c.setDrop k d).cache_remaining_drops = c.cache_remaining_drops :=
  ⟨rfl, rfl⟩

/-- A `DropsCampaign._on_claim` run that completed without raising leaves
both count caches cleared. -/
theorem campaign_on_claim_clears (c c2 : DropsCampaign)
    (h : campaign_on_claim c = (c2, none)) :
    c2.cache_claimed_drops = none ∧ c2.cache_remaining_drops = none := by
  unfold campaign_on_claim at h
  split at h
  · simp at h
  next a ha =>
    dsimp only at h
    split at h
    · simp at h
    next b hb =>
      simp only [Prod.mk.injEq] at h
      obtain ⟨h1, h2⟩ := h
      rw [← h1]
      exact ⟨rfl, rfl⟩

/-- The fresh two-drop campaign after reading only `remaining_drops`
(caching the value 2), then a successful claim on drop "a" whose cascade
raises before the stale cache is cleared. -/
def exC7_broken : ClaimResult :=
  claim ((campaign_remaining_drops exFresh).1) "a" respSuccess

/-- Claim C7 counterexample: when only `remaining_drops` was read before a
successful claim, the invalidation cascade raises at `del claimed_drops`
(never populated) and leaves the stale `remaining_drops` cache, after which
`claimed_count + remaining_count = 1 + 2 ≠ 2 = total_units`. -/
theorem C7_counterexample :
    exC7_broken.err = some (.attributeError "claimed_drops") ∧
      ((exC7_broken.campaign.getDrop "a").map (fun d => d.is_claimed) =
        some true) ∧
      (campaign_claimed_drops exC7_broken.campaign).2 = 1 ∧
      (campaign_remaining_drops (campaign_claimed_drops
        exC7_broken.campaign).1).2 = 2 ∧
      total_drops exC7_broken.campaign = 2 ∧ ((1 : Int) + 2 ≠ 2) :=
  ⟨rfl, rfl, rfl, rfl, rfl, by decide⟩

/-- The count caches are valid: each, when populated, holds exactly the sum
it memoizes. -/
def countsValid (c : DropsCampaign) : Prop :=
  (∀ v, c.cache_claimed_drops = some v → v = claimedSum c.timed_drops) ∧
  (∀ v, c.cache_remaining_drops = some v → v = remainingSum c.timed_drops)

/-- Claim C7 (amended): from any state with valid count caches, reading
`claimed_drops` and `remaining_drops` yields a sum equal to `total_drops`,
and every mutation — `update_minutes`, `bump_minutes`, and any `claim()`
that does not raise — preserves cache validity (so the invariant holds after
every non-raising mutation; a claim whose cascade raises can leave a stale
count cache, see the counterexample). -/
theorem C7_counts_invariant (c : DropsCampaign) (h : countsValid c) :
    ((campaign_claimed_drops c).2 +
        (campaign_remaining_drops (campaign_claimed_drops c).1).2 =
      total_drops c) ∧
    (∀ did m, countsValid (update_minutes c did m).1) ∧
    (∀ did, countsValid (bump_minutes c did).1) ∧
    (∀ did resp, (claim c did resp).err = none →
      countsValid (claim c did resp).campaign) := by
  have hread : (campaign_claimed_drops c).2 = claimedSum c.timed_drops ∧
      (campaign_claimed_drops c).1.cache_remaining_drops =
        c.cache_remaining_drops ∧
      (campaign_claimed_drops c).1.timed_drops = c.timed_drops := by
    unfold campaign_claimed_drops
    split
    next v hk => exact ⟨h.1 v hk, rfl, rfl⟩
    next hk => exact ⟨rfl, rfl, rfl⟩
  have hread2 : (campaign_remaining_drops (campaign_claimed_drops c).1).2 =
      remainingSum c.timed_drops := by
    unfold campaign_remaining_drops
    rw [hread.2.1]
    split
    next v hk => exact h.2 v hk
    next hk => rw [hread.2.2]
  have hvalidMinutes : ∀ c0 : DropsCampaign, countsValid c0 →
      ∀ did, countsValid (drop_on_minutes_changed c0 did).1 := by
    intro c0 h0 did
    have hp := drop_on_minutes_changed_preserves c0 did
    constructor
    · intro v hv
      rw [hp.1] at hv
      rw [hp.2.2.1]
      exact h0.1 v hv
    · intro v hv
      rw [hp.2.1] at hv
      rw [hp.2.2.2]
      exact h0.2 v hv
  refine ⟨?_, ?_, ?_, ?_⟩
  · rw [hread.1, hread2]
    exact claimedSum_add_remainingSum c.timed_drops
  · intro did m
    unfold update_minutes
    split
    next => exact h
    next d hd =>
      refine hvalidMinutes _ ⟨?_, ?_⟩ did
      · intro v hv
        have hvv := h.1 v hv
        exact hvv.trans (claimedSum_set c.timed_drops did d
          { d with current_minutes := m } hd rfl).symm
      · intro v hv
        have hvv := h.2 v hv
        exact hvv.trans (remainingSum_set c.timed_drops did d
          { d with current_minutes := m } hd rfl).symm
  · intro did
    unfold bump_minutes
    split
    next => exact h
    next d hd =>
      split
      · refine hvalidMinutes _ ⟨?_, ?_⟩ did
        · intro v hv
          have hvv := h.1 v hv
          exact hvv.trans (claimedSum_set c.timed_drops did d
            { d with current_minutes := d.current_minutes + 1 } hd rfl).symm
        · intro v hv
          have hvv := h.2 v hv
          exact hvv.trans (remainingSum_set c.timed_drops did d
            { d with current_minutes := d.current_minutes + 1 } hd rfl).symm
      · exact h
  · intro did resp herr
    rcases hcl : claim c did resp with ⟨cf, r, q, e⟩
    rw [hcl] at herr
    dsimp only at herr ⊢
    subst herr
    unfold claim at hcl
    split at hcl
    · simp only [ClaimResult.mk.injEq] at hcl
      rw [← hcl.1]
      exact h
    next d hd =>
      split at hcl
      next q' hci =>
        simp only [ClaimResult.mk.injEq] at hcl
        rw [← hcl.1]
        exact h
      next q' hci =>
        dsimp only at hcl
        split at hcl
        next c2 e2 hoc =>
          simp at hcl
        next c2 hoc =>
          have hc2 := campaign_on_claim_clears _ _ hoc
          split at hcl
          · simp only [ClaimResult.mk.injEq] at hcl
            rw [← hcl.1]
            exact ⟨fun v hv => absurd (hc2.1.symm.trans hv) (by simp),
              fun v hv => absurd (hc2.2.symm.trans hv) (by simp)⟩
          next d2 hd2 =>
            simp only [ClaimResult.mk.injEq] at hcl
            rw [← hcl.1]
            constructor
            · intro v hv
              rw [(setDrop_cache_counts _ _ _).1, hc2.1] at hv
              cases hv
            · intro v hv
              rw [(setDrop_cache_counts _ _ _).2, hc2.2] at hv
              cases hv

theorem C7_counts_invariant_witness :
    (campaign_claimed_drops exC3_prepared).2 +
        (campaign_remaining_drops (campaign_claimed_drops exC3_prepared).1).2 =
      total_drops exC3_prepared :=
  (C7_counts_invariant exC3_prepared
    ⟨fun v hv => by cases hv; rfl, fun v hv => by cases hv; rfl⟩).1

/-- Claim C6: a successful claim of drop `aid` invalidates every sibling
drop's `preconditions` cache (the campaign-wide cascade), so the next read of
sibling `bid`'s `can_earn` — whose cached preconditions value was `false`
because `aid` was unclaimed — recomputes it with `aid` now claimed and flips
to `true` when `bid`'s remaining conditions (unclaimed, campaign active,
inside the drop window) hold. -/
theorem C6_claim_unblocks_sibling (c : DropsCampaign) (aid bid : String)
    (A B : TimedDrop) (now : Int) (resp : GqlData)
    (hA : c.getDrop aid = some A) (hB : c.getDrop bid = some B)
    (hne : bid ≠ aid)
    (hAtok : A.claim_id.isSome = true) (hAuncl : A.is_claimed = false)
    (hresp : eval_claim_response resp = true)
    (hcc : c.cache_claimed_drops.isSome = true)
    (hcr : c.cache_remaining_drops.isSome = true)
    (hpre : ∀ p ∈ c.timed_drops, p.2.cache_preconditions.isSome = true)
    (hBpre : B.precondition_drops = [aid])
    (hBuncl : B.is_claimed = false)
    (hact : campaign_active c now = true)
    (hBs : B.starts_at ≤ now) (hBe : now < B.ends_at)
    (hBcache : B.cache_preconditions = some false) :
    (read_can_earn c bid now).2 = .ok false ∧
      (claim c aid resp).err = none ∧ (claim c aid resp).result = true ∧
      (read_can_earn (claim c aid resp).campaign bid now).2 = .ok true := by
  have hbefore : (read_can_earn c bid now).2 = .ok false := by
    unfold read_can_earn
    rw [hB]
    dsimp only
    unfold drop_preconditions
    rw [hBcache]
    dsimp only
    simp
  have hinner : claim_inner A resp = (true, true) := by
    simp [claim_inner, can_claim, hAtok, hAuncl, hresp]
  have hpre' := pre_all_set c.timed_drops aid A { A with is_claimed := true }
    hA hpre rfl
  have hoc := campaign_on_claim_populated
    (c.setDrop aid { A with is_claimed := true }) hcc hcr hpre'
  have hRaid : lookupDrop
      ((c.setDrop aid { A with is_claimed := true }).timed_drops.map
        (fun p => (p.1, clearPre p.2))) aid =
      some (clearPre { A with is_claimed := true }) := by
    rw [lookupDrop_map_clear]
    dsimp only [DropsCampaign.setDrop]
    rw [lookupDrop_set_same _ _ _ _ hA]
    rfl
  have hRbid : lookupDrop
      ((c.setDrop aid { A with is_claimed := true }).timed_drops.map
        (fun p => (p.1, clearPre p.2))) bid = some (clearPre B) := by
    rw [lookupDrop_map_clear]
    dsimp only [DropsCampaign.setDrop]
    rw [lookupDrop_set_ne _ _ _ _ hne]
    rw [show lookupDrop c.timed_drops bid = some B from hB]
    rfl
  obtain ⟨cf, hcf, R, d2, hcfR, hRb, hRa, hd2cl, hRs, hRe⟩ :
      ∃ cf, claim c aid resp = ⟨cf, true, true, none⟩ ∧
      ∃ (R : DropsCampaign) (d2 : TimedDrop),
        cf = R.setDrop aid d2 ∧
        R.getDrop bid = some (clearPre B) ∧
        R.getDrop aid = some (clearPre { A with is_claimed := true }) ∧
        d2.is_claimed = true ∧
        R.starts_at = c.starts_at ∧ R.ends_at = c.ends_at := by
    unfold claim
    rw [hA]
    dsimp only
    rw [hinner]
    dsimp only
    rw [hoc]
    dsimp only [DropsCampaign.getDrop]
    rw [hRaid]
    dsimp only
    exact ⟨_, rfl, _, _, rfl, hRbid, hRaid, rfl, rfl, rfl⟩
  have hbidlookup : cf.getDrop bid = some (clearPre B) := by
    rw [hcfR, getDrop_setDrop_ne _ _ _ _ hne]
    exact hRb
  have hd2look : cf.getDrop aid = some d2 := by
    rw [hcfR]
    exact getDrop_setDrop_same _ _ _ _ hRa
  have hd2claimed : d2.is_claimed = true := hd2cl
  have hwins : cf.starts_at = c.starts_at := by
    rw [hcfR]
    exact hRs
  have hwine : cf.ends_at = c.ends_at := by
    rw [hcfR]
    exact hRe
  refine ⟨hbefore, ?_, ?_, ?_⟩
  · rw [hcf]
  · rw [hcf]
  · rw [hcf]
    dsimp only
    have hpv : preconditions_value cf [aid] = .ok true := by
      unfold preconditions_value
      rw [hd2look]
      dsimp only
      rw [hd2claimed]
      simp [preconditions_value]
    have hdp : drop_preconditions cf (clearPre B) =
        ({ clearPre B with cache_preconditions := some true }, .ok true) := by
      unfold drop_preconditions
      dsimp only [clearPre]
      rw [hBpre, hpv]
    simp [campaign_active] at hact
    unfold read_can_earn
    rw [hbidlookup]
    dsimp only
    rw [hdp]
    dsimp only [clearPre]
    simp [campaign_active, hwins, hwine, hBuncl, hact.1, hact.2, hBs, hBe]

/-- Claimable drop "a" of the C6 example, preconditions cache populated. -/
def exC6_A : TimedDrop :=
  { id := "a", name := "A", rewards := [], starts_at := 0, ends_at := 100,
    claim_id := some "tok", is_claimed := false, precondition_drops := [],
    current_minutes := 10, required_minutes := 10,
    cache_preconditions := some true, cache_remaining_minutes := none,
    cache_progress := none }

/-- Drop "b" of the C6 example: its preconditions require "a" to be claimed
and its cache holds the stale value `false`. -/
def exC6_B : TimedDrop :=
  { id := "b", name := "B", rewards := [], starts_at := 0, ends_at := 100,
    claim_id := none, is_claimed := false, precondition_drops := ["a"],
    current_minutes := 0, required_minutes := 10,
    cache_preconditions := some false, cache_remaining_minutes := none,
    cache_progress := none }

/-- The C6 example campaign with count caches populated. -/
def exC6_campaign : DropsCampaign :=
  { id := "camp6", name := "Campaign 6", game := ⟨7, "Some Game"⟩,
    starts_at := 0, ends_at := 100, allowed_channels := [],
    timed_drops := [("a", exC6_A), ("b", exC6_B)],
    cache_claimed_drops := some 0, cache_remaining_drops := some 2,
    cache_remaining_minutes := none, cache_progress := none }

theorem C6_claim_unblocks_sibling_witness :
    (read_can_earn exC6_campaign "b" 50).2 = .ok false ∧
      (claim exC6_campaign "a" respSuccess).err = none ∧
      (claim exC6_campaign "a" respSuccess).result = true ∧
      (read_can_earn (claim exC6_campaign "a" respSuccess).campaign "b"
        50).2 = .ok true :=
  C6_claim_unblocks_sibling exC6_campaign "a" "b" exC6_A exC6_B 50 respSuccess
    rfl rfl (by decide) rfl rfl (by decide) rfl rfl (by decide) rfl rfl
    (by decide) (by decide) (by decide) rfl

end TwitchDrops

